import Mathlib

/-!
Verification of the FlixPatrol scraper worker (drop-worker).

The repository contains two near-identical worker variants:
* `src/server/index.js` — its `/scheduled` pipeline extracts rows with a
  DOM-query extractor (`scrapeFlixPatrol`, cheerio-based) and also carries a
  regex-based `parseMovieData`;
* `src/unnamed/part_000` — its `scrapeFlixPatrol` fetches the page and runs
  the same regex-based `parseMovieData`.

This file embeds both extractors, the year/streaming filter, the upsert
reconciler (`storeMoviesInDatabase` over the `INSERT ... ON CONFLICT (title,
year) DO UPDATE` statement) and the `/scheduled` success-path summary.

Strings are processed over `List Char`.  Each JavaScript regex used by the
source is embedded as a left-to-right scanner that attempts a match at every
start position, exactly as the regex engine does for these patterns (all of
them are a literal anchor followed by deterministic pieces, so backtracking
collapses to the maximal-run conditions encoded below).
-/

/-! ### Basic string machinery (JS semantics over `List Char`) -/

/-- JS `hay.includes(needle)`: substring containment, scanning left to right. -/
def listContains (needle : List Char) : List Char → Bool
  | [] => needle.isEmpty
  | c :: rest => needle.isPrefixOf (c :: rest) || listContains needle rest

/-- `String` wrapper for JS `hay.includes(pat)`. -/
def strContains (hay pat : String) : Bool :=
  listContains pat.toList hay.toList

def toStr (l : List Char) : String := ⟨l⟩

/-- JS `\s` (the ASCII whitespace characters plus NBSP; the more exotic
Unicode space characters never occur in the patterns or inputs modelled). -/
def isJsSpace (c : Char) : Bool :=
  c == ' ' || c == '\t' || c == '\n' || c == '\r' || c == '\x0b' || c == '\x0c' || c == ' '

/-- JS `String.prototype.trim`. -/
def trimList (l : List Char) : List Char :=
  ((l.dropWhile isJsSpace).reverse.dropWhile isJsSpace).reverse

def trimStr (s : String) : String := toStr (trimList s.toList)

/-- JS `str.split(marker)` for a non-empty string `marker`, via fuel
(`fuel ≥ length` makes the fallback unreachable: at least one character is
consumed per step). -/
def splitFuel (marker : List Char) : Nat → List Char → List (List Char)
  | _, [] => [[]]
  | 0, l => [l]
  | fuel + 1, c :: rest =>
    if !marker.isEmpty && marker.isPrefixOf (c :: rest) then
      [] :: splitFuel marker fuel ((c :: rest).drop marker.length)
    else
      match splitFuel marker fuel rest with
      | [] => [[c]]
      | s :: ss => (c :: s) :: ss

def jsSplit (marker : List Char) (l : List Char) : List (List Char) :=
  splitFuel marker (l.length + 1) l

/-! ### The regex scanners of `parseMovieData` -/

def altLit : List Char := "alt=\"".toList
def hrefLit : List Char := "href=\"".toList
def srcLit : List Char := "src=\"".toList
def jpgLit : List Char := ".jpg".toList
def yearSpanLit : List Char := "<span class=\"text-gray-600\">".toList
def closeSpanLit : List Char := "</span>".toList
def spanOpenLit : List Char := "<span>".toList
def pipeSpanLit : List Char := "<span class=\"mx-1 text-gray-600 select-none\">|</span>".toList
def premiereOpenLit : List Char := "<span><span title=\"Premiere\">".toList
def divDivLit : List Char := "</div></div>".toList

/-- `row.match(/tag"([^"]+)"/)`: at each position, after the literal `tag`
the capture is the maximal run of non-quote characters; the match succeeds
iff that run is non-empty and a closing quote follows. -/
def scanQuoted (tag : List Char) : List Char → Option (List Char)
  | [] => none
  | c :: rest =>
    if tag.isPrefixOf (c :: rest) then
      let after := (c :: rest).drop tag.length
      let cap := after.takeWhile (fun ch => ch != '"')
      let rem := after.dropWhile (fun ch => ch != '"')
      if cap.isEmpty || rem.isEmpty then scanQuoted tag rest else some cap
    else scanQuoted tag rest

/-- `row.match(/src="([^"]+\.jpg)"/)`: the capture is the maximal non-quote
run after `src="`; it must end in `.jpg`, have at least one character before
that suffix, and be followed by a closing quote. -/
def scanSrcJpg : List Char → Option (List Char)
  | [] => none
  | c :: rest =>
    if srcLit.isPrefixOf (c :: rest) then
      let after := (c :: rest).drop srcLit.length
      let cap := after.takeWhile (fun ch => ch != '"')
      let rem := after.dropWhile (fun ch => ch != '"')
      if decide (5 ≤ cap.length) && jpgLit.isSuffixOf cap && !rem.isEmpty then some cap
      else scanSrcJpg rest
    else scanSrcJpg rest

/-- The date part of `/<span class="text-gray-600">(\d{2})\/(\d{2})\/(\d{4})<\/span>/`
after its literal anchor: `\d{2}\/\d{2}\/(\d{4})<\/span>`, returning the
third capture group. -/
def tryDate : List Char → Option (List Char)
  | d1 :: d2 :: s1 :: d3 :: d4 :: s2 :: y1 :: y2 :: y3 :: y4 :: rest =>
    if d1.isDigit && d2.isDigit && s1 == '/' && d3.isDigit && d4.isDigit && s2 == '/'
        && y1.isDigit && y2.isDigit && y3.isDigit && y4.isDigit
        && closeSpanLit.isPrefixOf rest then
      some [y1, y2, y3, y4]
    else none
  | _ => none

def scanYear : List Char → Option (List Char)
  | [] => none
  | c :: rest =>
    if yearSpanLit.isPrefixOf (c :: rest) then
      match tryDate ((c :: rest).drop yearSpanLit.length) with
      | some y => some y
      | none => scanYear rest
    else scanYear rest

/-- The tail of the country regex after its `<span>` anchor:
`([^<]+)<\/span>\s*<span class="mx-1 ...">\|<\/span>\s*<span><span title="Premiere">`.
(The `\|` and the surrounding literals are fused into `pipeSpanLit`.) -/
def tryCountry (l : List Char) : Option (List Char) :=
  let cap := l.takeWhile (fun ch => ch != '<')
  let r1 := l.dropWhile (fun ch => ch != '<')
  if cap.isEmpty then none
  else if closeSpanLit.isPrefixOf r1 then
    let r2 := (r1.drop closeSpanLit.length).dropWhile isJsSpace
    if pipeSpanLit.isPrefixOf r2 then
      let r3 := (r2.drop pipeSpanLit.length).dropWhile isJsSpace
      if premiereOpenLit.isPrefixOf r3 then some cap else none
    else none
  else none

def scanCountry : List Char → Option (List Char)
  | [] => none
  | c :: rest =>
    if spanOpenLit.isPrefixOf (c :: rest) then
      match tryCountry ((c :: rest).drop spanOpenLit.length) with
      | some cap => some cap
      | none => scanCountry rest
    else scanCountry rest

/-- The tail of the genre regex after its `<span>` anchor:
`([^<]+)<\/span>\s*<\/div><\/div>`. -/
def tryGenre (l : List Char) : Option (List Char) :=
  let cap := l.takeWhile (fun ch => ch != '<')
  let r1 := l.dropWhile (fun ch => ch != '<')
  if cap.isEmpty then none
  else if closeSpanLit.isPrefixOf r1 then
    let r2 := (r1.drop closeSpanLit.length).dropWhile isJsSpace
    if divDivLit.isPrefixOf r2 then some cap else none
  else none

def scanGenre : List Char → Option (List Char)
  | [] => none
  | c :: rest =>
    if spanOpenLit.isPrefixOf (c :: rest) then
      match tryGenre ((c :: rest).drop spanOpenLit.length) with
      | some cap => some cap
      | none => scanGenre rest
    else scanGenre rest

/-! ### CandidateRecord and the regex-based extractor `parseMovieData` -/

/-- The movie object built per row (nullable fields are `Option`). -/
structure Movie where
  title : Option String
  posterUrl : Option String
  link : Option String
  year : Option String
  country : Option String
  genre : Option String
  isMovie : Bool
  hasStreaming : Bool
deriving DecidableEq, Repr

def flixBase : String := "https://flixpatrol.com"

/-- The streaming check of `parseMovieData`: eight case-SENSITIVE
`row.includes(...)` tests. -/
def hasStreamingCS (row : String) : Bool :=
  strContains row "Netflix" || strContains row "Amazon" || strContains row "Disney" ||
  strContains row "HBO" || strContains row "Hulu" || strContains row "Apple TV" ||
  strContains row "streaming" || strContains row "Stream"

/-- The body of `parseMovieData`'s per-row closure.  The JS `try`/`catch`
around it can only skip the row, which the `Option` result represents; the
conditional push `if (movie.title && movie.isMovie)` is the `if` below
(a captured title is non-empty, so truthiness is `isSome`). -/
def parseMovieRow (row : String) : Option Movie :=
  let r := row.toList
  let title := (scanQuoted altLit r).map toStr
  let posterUrl := (scanSrcJpg r).map (fun s => flixBase ++ toStr s)
  let link := (scanQuoted hrefLit r).map (fun s => flixBase ++ toStr s)
  let year := (scanYear r).map toStr
  let country := (scanCountry r).map toStr
  let genre := (scanGenre r).map toStr
  let isMovie := strContains row "Movie"
  let hasStreaming := hasStreamingCS row
  if title.isSome && isMovie then
    some { title := title, posterUrl := posterUrl, link := link, year := year,
           country := country, genre := genre, isMovie := isMovie,
           hasStreaming := hasStreaming }
  else none

def tableGroupMarker : List Char := "<tr class=\"table-group\">".toList

/-- `html.split('<tr class="table-group">').slice(1)`. -/
def splitDoc (html : String) : List String :=
  ((jsSplit tableGroupMarker html.toList).map toStr).drop 1

/-- `parseMovieData`: split the document on the row marker, drop the part
before the first row, parse each row independently. -/
def parseMovieData (html : String) : List Movie :=
  (splitDoc html).filterMap parseMovieRow

/-! ### The cheerio-based extractor `scrapeFlixPatrol` (src/server/index.js) -/

/-- One `tr.table-group` row as seen through the cheerio queries the source
performs on it: the `alt` of the first `img[alt]`, the `src` of the first
`img`, the `href` of the first `a`, the text of `span[title="Premiere"]`
(`""` when no such span), the texts of all `span`s in document order, and
the row's visible text. -/
structure RowFrag where
  imgAlt : Option String
  imgSrc : Option String
  aHref : Option String
  premiereText : String
  spans : List String
  rowText : String
deriving DecidableEq, Repr

/-- JS `s || null` for a string already defaulted to `""`. -/
def jsOrNull (s : String) : Option String :=
  if s = "" then none else some s

/-- Case-insensitive containment, as `/pat/i.test hay` folds ASCII case. -/
def containsCI (hay pat : String) : Bool :=
  listContains (pat.toList.map Char.toLower) (hay.toList.map Char.toLower)

/-- `/Netflix|Amazon|Disney|HBO|Hulu|Apple TV|streaming|Stream/i.test(rowText)`. -/
def hasStreamingCI (s : String) : Bool :=
  containsCI s "Netflix" || containsCI s "Amazon" || containsCI s "Disney" ||
  containsCI s "HBO" || containsCI s "Hulu" || containsCI s "Apple TV" ||
  containsCI s "streaming" || containsCI s "Stream"

/-- `fullDateText.split('/')[2] || null` (after `trim`). -/
def thirdSlashField (s : String) : Option String :=
  let t := trimStr s
  jsOrNull (toStr ((jsSplit ['/'] t.toList).getD 2 []))

/-- The body of `scrapeFlixPatrol`'s `$('tr.table-group').each` closure.
`attr() || null` maps an absent or empty attribute to null; poster and link
are prefixed unconditionally; `$(allSpans[i]).text()` of an out-of-range
index is `""`. -/
def scrapeFlixPatrolRow (frag : RowFrag) : Option Movie :=
  let title := jsOrNull (frag.imgAlt.getD "")
  let posterSrc := frag.imgSrc.getD ""
  let posterUrl := if posterSrc = "" then none else some (flixBase ++ posterSrc)
  let linkHref := frag.aHref.getD ""
  let link := if linkHref = "" then none else some (flixBase ++ linkHref)
  let year := thirdSlashField frag.premiereText
  let country := jsOrNull (trimStr ((frag.spans.getD 2 "")))
  let genre := jsOrNull (trimStr ((frag.spans.getD 4 "")))
  let hasStreaming := hasStreamingCI frag.rowText
  let isMovie := strContains frag.rowText "Movie"
  if title.isSome && isMovie then
    some { title := title, posterUrl := posterUrl, link := link, year := year,
           country := country, genre := genre, isMovie := true,
           hasStreaming := hasStreaming }
  else none

/-- The extraction loop of the cheerio `scrapeFlixPatrol`, over the selected
row fragments (the fetch is an external collaborator). -/
def scrapeFlixPatrol (frags : List RowFrag) : List Movie :=
  frags.filterMap scrapeFlixPatrolRow

/-! ### Classifier/Filter -/

/-- The `/scheduled` (and `/scrape-now`) filter:
`movie.year === '2025' && !movie.hasStreaming`. -/
def filter2025Movies (movies : List Movie) : List Movie :=
  movies.filter (fun movie => movie.year == some "2025" && !movie.hasStreaming)

/-- The same predicate with the hard-coded `'2025'` generalised to a target
year, as the spec states the filter contract. -/
def filterMoviesByYear (targetYear : String) (movies : List Movie) : List Movie :=
  movies.filter (fun movie => movie.year == some targetYear && !movie.hasStreaming)

/-! ### Reconciler (upsert engine) -/

/-- One row of the `movies` table. -/
structure StoredMovie where
  title : Option String
  posterUrl : Option String
  link : Option String
  year : Option String
  country : Option String
  genre : Option String
  hasStreaming : Bool
  updatedAt : Nat
deriving DecidableEq, Repr

/-- Whether an incoming movie collides with a stored row on the unique key
`(title, year)`.  SQL NULLs are distinct, so a null component never
conflicts. -/
def keyConflict (r : StoredMovie) (m : Movie) : Bool :=
  match r.title, m.title, r.year, m.year with
  | some t1, some t2, some y1, some y2 => t1 == t2 && y1 == y2
  | _, _, _, _ => false

/-- `INSERT INTO movies (...) VALUES (...) ON CONFLICT (title, year) DO
UPDATE SET poster_url, link, country, genre, has_streaming, updated_at`:
on conflict every non-key column is overwritten from the incoming row and
`updated_at` is set to `NOW()`; otherwise a fresh row is inserted. -/
def upsertMovie (now : Nat) (db : List StoredMovie) (m : Movie) : List StoredMovie :=
  if db.any (fun r => keyConflict r m) then
    db.map (fun r =>
      if keyConflict r m then
        { r with posterUrl := m.posterUrl, link := m.link, country := m.country,
                 genre := m.genre, hasStreaming := m.hasStreaming, updatedAt := now }
      else r)
  else
    db ++ [{ title := m.title, posterUrl := m.posterUrl, link := m.link,
             year := m.year, country := m.country, genre := m.genre,
             hasStreaming := m.hasStreaming, updatedAt := now }]

/-- A storage write attempt: the upsert when the engine accepts the write,
`none` when it raises (constraint violation, transient storage error). -/
def sqlAttempt (ok : Movie → Bool) (now : Nat) (db : List StoredMovie) (movie : Movie) :
    Option (List StoredMovie) :=
  if ok movie then some (upsertMovie now db movie) else none

/-- `storeMoviesInDatabase`: each record's write is tried inside its own
`try`/`catch`; a failed write is skipped and `storedCount` counts only the
successes.  The function is total: no failure propagates to the caller. -/
def storeMoviesInDatabase (attempt : List StoredMovie → Movie → Option (List StoredMovie)) :
    List StoredMovie → List Movie → List StoredMovie × Nat
  | db, [] => (db, 0)
  | db, movie :: rest =>
    match attempt db movie with
    | some db2 =>
      let p := storeMoviesInDatabase attempt db2 rest
      (p.1, p.2 + 1)
    | none => storeMoviesInDatabase attempt db rest

/-! ### The `/scheduled` success-path summary -/

/-- JSON-ish values appearing in the run summary. -/
inductive JVal where
  | str : String → JVal
  | nat : Nat → JVal
  | bool : Bool → JVal
deriving DecidableEq, Repr

/-- Field access on the summary object. -/
def lookupJ (k : String) (obj : List (String × JVal)) : Option JVal :=
  (obj.find? (fun kv => kv.1 == k)).map (fun kv => kv.2)

/-- The success path of the `/scheduled` handler: scrape (the fetched markup
is the `html` argument), filter, store, and assemble the literal result
object of the source.  Returns the summary and the storage state. -/
def runScheduled (html : String) (ts : String)
    (attempt : List StoredMovie → Movie → Option (List StoredMovie))
    (db : List StoredMovie) : List (String × JVal) × List StoredMovie :=
  let scrapedData := parseMovieData html
  let filtered2025 := filter2025Movies scrapedData
  let p := storeMoviesInDatabase attempt db filtered2025
  ([("success", JVal.bool true),
    ("timestamp", JVal.str ts),
    ("totalScraped", JVal.nat scrapedData.length),
    ("filtered2025Count", JVal.nat filtered2025.length),
    ("storedCount", JVal.nat p.2),
    ("message", JVal.str ("Successfully scraped and stored " ++ toString p.2 ++ " movies"))],
   p.1)

/-- `year` is a 4-digit string. -/
def isFourDigit (s : String) : Bool :=
  s.toList.length == 4 && s.toList.all Char.isDigit

/-! ### Concrete inputs used to instantiate the theorems -/

def rowMarker : String := "<tr class=\"table-group\">"

def rowMovieA : String := "<img alt=\"A\">Movie<span class=\"text-gray-600\">01/01/2025</span>"
def rowMovieB : String := "<img alt=\"B\">Movie<span class=\"text-gray-600\">02/01/2025</span>"
def rowMovieC : String := "<img alt=\"C\">Movie<span class=\"text-gray-600\">03/01/2025</span>"

/-- A document with three well-formed 2025 movie rows. -/
def docThree : String := rowMarker ++ rowMovieA ++ rowMarker ++ rowMovieB ++ rowMarker ++ rowMovieC

/-- A document with a single well-formed row. -/
def docOne : String := "junk" ++ rowMarker ++ rowMovieA

/-- The record extracted from `rowMovieA`. -/
def movieA : Movie :=
  { title := some "A", posterUrl := none, link := none, year := some "2025",
    country := none, genre := none, isMovie := true, hasStreaming := false }

/-- A storage engine that rejects the write for title `B` (simulated
constraint violation) and accepts every other record. -/
def okNotB : Movie → Bool := fun m => !(m.title == some "B")

/-- A fragment whose text mentions netflix in lower case only. -/
def rowNetflixLower : String := "<img alt=\"Inferno\"> Movie netflix"
def docNetflixLower : String := rowMarker ++ rowNetflixLower

def movieInferno : Movie :=
  { title := some "Inferno", posterUrl := none, link := none, year := none,
    country := none, genre := none, isMovie := true, hasStreaming := false }

/-- A fragment whose image src and anchor href are already absolute URLs. -/
def rowAbsUrl : String :=
  "<img alt=\"Dune\" src=\"https://cdn.x.com/p.jpg\"><a href=\"https://x.com/a\">Movie</a>"
def docAbsUrl : String := rowMarker ++ rowAbsUrl

def movieDune : Movie :=
  { title := some "Dune",
    posterUrl := some "https://flixpatrol.comhttps://cdn.x.com/p.jpg",
    link := some "https://flixpatrol.comhttps://x.com/a",
    year := none, country := none, genre := none, isMovie := true,
    hasStreaming := false }

/-- A cheerio row whose premiere span carries a two-digit year. -/
def fragShortYear : RowFrag :=
  { imgAlt := some "Heat", imgSrc := none, aHref := none,
    premiereText := "06/04/25", spans := [], rowText := "Movie 06/04/25" }

def movieHeat : Movie :=
  { title := some "Heat", posterUrl := none, link := none, year := some "25",
    country := none, genre := none, isMovie := true, hasStreaming := false }

/-- A stored row for key `("X", "2024")`. -/
def storedX : StoredMovie :=
  { title := some "X", posterUrl := some "/old.jpg", link := some "/old",
    year := some "2024", country := some "us", genre := some "Action",
    hasStreaming := false, updatedAt := 1 }

/-- An incoming record for the same key with a different genre and a null
poster. -/
def incomingX : Movie :=
  { title := some "X", posterUrl := none, link := some "/new",
    year := some "2024", country := none, genre := some "Drama",
    isMovie := true, hasStreaming := true }

/-! ### Characterisation lemmas for the two per-row extractors -/

theorem parseMovieRow_isSome_eq (row : String) :
    (parseMovieRow row).isSome
      = ((scanQuoted altLit row.toList).isSome && strContains row "Movie") := by
  cases h : scanQuoted altLit row.data <;> cases h2 : strContains row "Movie" <;>
    simp [parseMovieRow, h, h2]

theorem parseMovieRow_fields {row : String} {m : Movie} (h : parseMovieRow row = some m) :
    m.title = (scanQuoted altLit row.toList).map toStr ∧
    m.posterUrl = (scanSrcJpg row.toList).map (fun s => flixBase ++ toStr s) ∧
    m.link = (scanQuoted hrefLit row.toList).map (fun s => flixBase ++ toStr s) ∧
    m.year = (scanYear row.toList).map toStr ∧
    m.country = (scanCountry row.toList).map toStr ∧
    m.genre = (scanGenre row.toList).map toStr ∧
    m.isMovie = strContains row "Movie" ∧
    m.hasStreaming = hasStreamingCS row := by
  simp only [parseMovieRow] at h
  split at h
  · injection h with h2
    subst h2
    exact ⟨rfl, rfl, rfl, rfl, rfl, rfl, rfl, rfl⟩
  · exact absurd h (by simp)

theorem scrapeFlixPatrolRow_isSome_eq (frag : RowFrag) :
    (scrapeFlixPatrolRow frag).isSome
      = ((jsOrNull (frag.imgAlt.getD "")).isSome && strContains frag.rowText "Movie") := by
  cases h : jsOrNull (frag.imgAlt.getD "") <;> cases h2 : strContains frag.rowText "Movie" <;>
    simp [scrapeFlixPatrolRow, h, h2]

theorem scrapeFlixPatrolRow_fields {frag : RowFrag} {m : Movie}
    (h : scrapeFlixPatrolRow frag = some m) :
    m.title = jsOrNull (frag.imgAlt.getD "") ∧
    m.posterUrl = (if frag.imgSrc.getD "" = "" then none
                   else some (flixBase ++ frag.imgSrc.getD "")) ∧
    m.link = (if frag.aHref.getD "" = "" then none
              else some (flixBase ++ frag.aHref.getD "")) ∧
    m.year = thirdSlashField frag.premiereText ∧
    m.country = jsOrNull (trimStr (frag.spans.getD 2 "")) ∧
    m.genre = jsOrNull (trimStr (frag.spans.getD 4 "")) ∧
    m.hasStreaming = hasStreamingCI frag.rowText := by
  simp only [scrapeFlixPatrolRow] at h
  split at h
  · injection h with h2
    subst h2
    exact ⟨rfl, rfl, rfl, rfl, rfl, rfl, rfl⟩
  · exact absurd h (by simp)

/-! ### Helper lemmas -/

theorem tryDate_four {l y : List Char} (h : tryDate l = some y) :
    isFourDigit (toStr y) = true := by
  unfold tryDate at h
  split at h
  · split at h
    · rename_i hc
      injection h with h2
      subst h2
      simp only [Bool.and_eq_true] at hc
      simp [isFourDigit, toStr, hc.1.1.1.1.2, hc.1.1.1.2, hc.1.1.2, hc.1.2]
    · exact absurd h (by simp)
  · exact absurd h (by simp)

theorem scanYear_four : ∀ {l y : List Char}, scanYear l = some y → isFourDigit (toStr y) = true := by
  intro l
  induction l with
  | nil => intro y h; simp [scanYear] at h
  | cons c rest ih =>
    intro y h
    unfold scanYear at h
    split at h
    · cases hd : tryDate ((c :: rest).drop yearSpanLit.length) with
      | some d => rw [hd] at h; injection h with h2; subst h2; exact tryDate_four hd
      | none => rw [hd] at h; exact ih h
    · exact ih h

theorem length_filterMap_all_some {α β : Type} (f : α → Option β) :
    ∀ l : List α, (∀ x ∈ l, (f x).isSome) → (l.filterMap f).length = l.length := by
  intro l
  induction l with
  | nil => intro _; rfl
  | cons a t ih =>
    intro h
    obtain ⟨b, hb⟩ := Option.isSome_iff_exists.mp (h a (List.mem_cons_self a t))
    simp only [List.filterMap_cons, hb, List.length_cons]
    rw [ih fun x hx => h x (List.mem_cons_of_mem a hx)]

theorem store_count_eq (ok : Movie → Bool) (now : Nat) :
    ∀ (movies : List Movie) (db : List StoredMovie),
      (storeMoviesInDatabase (sqlAttempt ok now) db movies).2 = (movies.filter ok).length := by
  intro movies
  induction movies with
  | nil => intro db; rfl
  | cons m rest ih =>
    intro db
    cases h : ok m <;>
      simp [storeMoviesInDatabase, sqlAttempt, h, List.filter_cons, ih]

theorem store_count_le (attempt : List StoredMovie → Movie → Option (List StoredMovie)) :
    ∀ (movies : List Movie) (db : List StoredMovie),
      (storeMoviesInDatabase attempt db movies).2 ≤ movies.length := by
  intro movies
  induction movies with
  | nil => intro db; exact Nat.le_refl 0
  | cons m rest ih =>
    intro db
    unfold storeMoviesInDatabase
    cases h : attempt db m with
    | some db2 => simpa using Nat.succ_le_succ (ih db2)
    | none => exact Nat.le_succ_of_le (ih db)

theorem filter_self_idem {α : Type} (p : α → Bool) :
    ∀ l : List α, (l.filter p).filter p = l.filter p := by
  intro l
  induction l with
  | nil => rfl
  | cons a t ih =>
    cases h : p a <;> simp [List.filter_cons, h, ih]

/-! ### Claim theorems -/

/-- Claim C1: for every markup document, a candidate record is emitted for a
row fragment iff the extracted title is non-null and the fragment's text
contains the category label "Movie"; consequently no emitted record has a
null title.  Stated for both the regex-based `parseMovieData` and the
cheerio-based `scrapeFlixPatrol`. -/
theorem extractorEmitsIffTitleAndMovie :
    (∀ row : String, (parseMovieRow row).isSome
        = ((scanQuoted altLit row.toList).isSome && strContains row "Movie")) ∧
    (∀ html : String, ∀ m ∈ parseMovieData html, m.title ≠ none) ∧
    (∀ frag : RowFrag, (scrapeFlixPatrolRow frag).isSome
        = ((jsOrNull (frag.imgAlt.getD "")).isSome && strContains frag.rowText "Movie")) ∧
    (∀ frags : List RowFrag, ∀ m ∈ scrapeFlixPatrol frags, m.title ≠ none) := by
  refine ⟨parseMovieRow_isSome_eq, ?_, scrapeFlixPatrolRow_isSome_eq, ?_⟩
  · intro html m hm
    simp only [parseMovieData] at hm
    obtain ⟨row, _, hrow⟩ := List.mem_filterMap.mp hm
    have hs : (parseMovieRow row).isSome := by rw [hrow]; rfl
    rw [parseMovieRow_isSome_eq] at hs
    simp only [Bool.and_eq_true] at hs
    obtain ⟨v, hv⟩ := Option.isSome_iff_exists.mp hs.1
    rw [(parseMovieRow_fields hrow).1, hv]
    simp
  · intro frags m hm
    simp only [scrapeFlixPatrol] at hm
    obtain ⟨frag, _, hfrag⟩ := List.mem_filterMap.mp hm
    have hs : (scrapeFlixPatrolRow frag).isSome := by rw [hfrag]; rfl
    rw [scrapeFlixPatrolRow_isSome_eq] at hs
    simp only [Bool.and_eq_true] at hs
    obtain ⟨v, hv⟩ := Option.isSome_iff_exists.mp hs.1
    rw [(scrapeFlixPatrolRow_fields hfrag).1, hv]
    simp

set_option maxRecDepth 4000 in
/-- Witness for C1 at a concrete document with one well-formed row. -/
theorem extractorEmitsIffTitleAndMovie_witness : movieA.title ≠ none :=
  extractorEmitsIffTitleAndMovie.2.1 docOne movieA (by decide)

/-- Claim C7: the extractor never lets a single malformed row abort the
batch: a per-fragment failure (a row whose parse yields nothing) is skipped,
so one malformed row plus N well-formed rows yields exactly N candidate
records.  Stated for both extractors; both per-row parsers are total
functions, so no parse failure ever propagates. -/
theorem malformedRowSkipped :
    (∀ (pre post : List String) (bad : String),
        parseMovieRow bad = none →
        (∀ r ∈ pre, (parseMovieRow r).isSome) →
        (∀ r ∈ post, (parseMovieRow r).isSome) →
        ((pre ++ bad :: post).filterMap parseMovieRow).length
          = pre.length + post.length) ∧
    (∀ (pre post : List RowFrag) (bad : RowFrag),
        scrapeFlixPatrolRow bad = none →
        (∀ r ∈ pre, (scrapeFlixPatrolRow r).isSome) →
        (∀ r ∈ post, (scrapeFlixPatrolRow r).isSome) →
        (scrapeFlixPatrol (pre ++ bad :: post)).length
          = pre.length + post.length) := by
  constructor
  · intro pre post bad hbad hpre hpost
    rw [List.filterMap_append, List.length_append,
      List.filterMap_cons_none hbad,
      length_filterMap_all_some _ _ hpre, length_filterMap_all_some _ _ hpost]
  · intro pre post bad hbad hpre hpost
    simp only [scrapeFlixPatrol]
    rw [List.filterMap_append, List.length_append,
      List.filterMap_cons_none hbad,
      length_filterMap_all_some _ _ hpre, length_filterMap_all_some _ _ hpost]

set_option maxRecDepth 4000 in
/-- Witness for C7: one malformed row between two well-formed rows yields
exactly two records. -/
theorem malformedRowSkipped_witness :
    (([rowMovieA] ++ "garbage" :: [rowMovieC]).filterMap parseMovieRow).length
      = [rowMovieA].length + [rowMovieC].length :=
  malformedRowSkipped.1 [rowMovieA] [rowMovieC] "garbage" (by decide) (by decide) (by decide)

/-- Claim C8: the filter is a pure function keeping exactly the records with
`year` equal to the target year and no streaming signal, and it is
idempotent; the pipeline's filter is the instance at target year "2025". -/
theorem filterIdempotent :
    (∀ movies : List Movie,
        filter2025Movies (filter2025Movies movies) = filter2025Movies movies) ∧
    (∀ (targetYear : String) (movies : List Movie),
        filterMoviesByYear targetYear (filterMoviesByYear targetYear movies)
          = filterMoviesByYear targetYear movies) ∧
    (∀ movies : List Movie, filter2025Movies movies = filterMoviesByYear "2025" movies) :=
  ⟨fun movies => filter_self_idem _ movies,
   fun _ movies => filter_self_idem _ movies,
   fun _ => rfl⟩

set_option maxRecDepth 100000 in
/-- Claim C2: each record's write is attempted in its own try/catch, so a
failing write never aborts the rest and `storedCount` counts exactly the
successful upserts; concretely, with three filtered records of which one
write fails, the run reports a filtered count of 3 and a stored count of 2
while still returning the success summary.  (`storeMoviesInDatabase` is a
total function: no storage failure propagates to the caller.) -/
theorem storedCountCountsSuccesses :
    (∀ (ok : Movie → Bool) (now : Nat) (db : List StoredMovie) (movies : List Movie),
        (storeMoviesInDatabase (sqlAttempt ok now) db movies).2
          = (movies.filter ok).length) ∧
    ((filter2025Movies (parseMovieData docThree)).length = 3 ∧
     lookupJ "filtered2025Count" (runScheduled docThree "t1" (sqlAttempt okNotB 7) []).1
       = some (JVal.nat 3) ∧
     lookupJ "storedCount" (runScheduled docThree "t1" (sqlAttempt okNotB 7) []).1
       = some (JVal.nat 2) ∧
     lookupJ "success" (runScheduled docThree "t1" (sqlAttempt okNotB 7) []).1
       = some (JVal.bool true)) := by
  refine ⟨fun ok now db movies => store_count_eq ok now movies db, ?_, ?_, ?_, ?_⟩
  · decide
  · decide
  · decide
  · decide

/-- Claim C3 counterexample: a successful run (here one that scrapes and
stores zero records) returns a summary with NO field named `filteredCount`;
the filtered count is carried by a field named `filtered2025Count`. -/
theorem noFilteredCountField :
    lookupJ "filteredCount" (runScheduled "" "t0" (sqlAttempt (fun _ => true) 0) []).1
      = none ∧
    lookupJ "filtered2025Count" (runScheduled "" "t0" (sqlAttempt (fun _ => true) 0) []).1
      = some (JVal.nat 0) ∧
    lookupJ "success" (runScheduled "" "t0" (sqlAttempt (fun _ => true) 0) []).1
      = some (JVal.bool true) ∧
    lookupJ "storedCount" (runScheduled "" "t0" (sqlAttempt (fun _ => true) 0) []).1
      = some (JVal.nat 0) := by
  refine ⟨?_, ?_, ?_, ?_⟩ <;> decide

/-- Claim C3 as amended: every successful run, including one that stores
zero records, returns the summary `{success, timestamp, totalScraped,
filtered2025Count, storedCount, message}`, where the field carrying the
number of records that passed the filter is named `filtered2025Count` (not
`filteredCount`). -/
theorem scheduledSummaryShape :
    ∀ (html ts : String) (attempt : List StoredMovie → Movie → Option (List StoredMovie))
      (db : List StoredMovie),
      ((runScheduled html ts attempt db).1).map Prod.fst
          = ["success", "timestamp", "totalScraped", "filtered2025Count",
             "storedCount", "message"] ∧
      lookupJ "filtered2025Count" (runScheduled html ts attempt db).1
          = some (JVal.nat (filter2025Movies (parseMovieData html)).length) ∧
      lookupJ "totalScraped" (runScheduled html ts attempt db).1
          = some (JVal.nat (parseMovieData html).length) ∧
      lookupJ "storedCount" (runScheduled html ts attempt db).1
          = some (JVal.nat (storeMoviesInDatabase attempt db
              (filter2025Movies (parseMovieData html))).2) ∧
      lookupJ "success" (runScheduled html ts attempt db).1 = some (JVal.bool true) ∧
      lookupJ "timestamp" (runScheduled html ts attempt db).1 = some (JVal.str ts) := by
  intro html ts attempt db
  exact ⟨rfl, rfl, rfl, rfl, rfl, rfl⟩

/-- Claim C10: the reported counts of a successful run form a chain
`0 ≤ storedCount ≤ filtered count ≤ totalScraped`: the filter only removes
candidates and the reconciler increments the stored count at most once per
filtered record, whatever the storage engine accepts. -/
theorem reportedCountChain :
    ∀ (attempt : List StoredMovie → Movie → Option (List StoredMovie))
      (db : List StoredMovie) (movies : List Movie) (html ts : String),
      0 ≤ (storeMoviesInDatabase attempt db (filter2025Movies movies)).2 ∧
      (storeMoviesInDatabase attempt db (filter2025Movies movies)).2
        ≤ (filter2025Movies movies).length ∧
      (filter2025Movies movies).length ≤ movies.length ∧
      lookupJ "totalScraped" (runScheduled html ts attempt db).1
        = some (JVal.nat (parseMovieData html).length) ∧
      lookupJ "filtered2025Count" (runScheduled html ts attempt db).1
        = some (JVal.nat (filter2025Movies (parseMovieData html)).length) ∧
      lookupJ "storedCount" (runScheduled html ts attempt db).1
        = some (JVal.nat (storeMoviesInDatabase attempt db
            (filter2025Movies (parseMovieData html))).2) := by
  intro attempt db movies html ts
  exact ⟨Nat.zero_le _, store_count_le attempt _ db,
    List.length_filter_le _ movies, rfl, rfl, rfl⟩

set_option maxRecDepth 100000 in
/-- Claim C4 counterexample: a row whose text mentions "netflix" in lower
case is emitted by `parseMovieData` with `hasStreaming = false`, although a
case-insensitive match against the fixed disjunction — what the claim
states — is true on that text: the regex-variant streaming check is
case-sensitive. -/
theorem lowercaseNetflixNotFlagged :
    parseMovieData docNetflixLower = [movieInferno] ∧
    movieInferno.hasStreaming = false ∧
    containsCI rowNetflixLower "Netflix" = true ∧
    hasStreamingCI rowNetflixLower = true ∧
    hasStreamingCS rowNetflixLower = false := by
  refine ⟨?_, ?_, ?_, ?_, ?_⟩ <;> decide

/-- Claim C4 as amended: the cheerio-based `scrapeFlixPatrol` computes the
streaming flag as the case-insensitive test
`/Netflix|Amazon|Disney|HBO|Hulu|Apple TV|streaming|Stream/i` on the row
text, so any casing such as "STREAMING" or "netflix" sets it; the
regex-based `parseMovieData` instead uses case-sensitive `includes` checks
against the same literals, so those casings do not set the flag there. -/
theorem streamingSignalCasing :
    (∀ (frag : RowFrag) (m : Movie), scrapeFlixPatrolRow frag = some m →
        m.hasStreaming = hasStreamingCI frag.rowText) ∧
    (∀ (row : String) (m : Movie), parseMovieRow row = some m →
        m.hasStreaming = hasStreamingCS row) ∧
    (hasStreamingCI "STREAMING tonight" = true ∧
     hasStreamingCI "on netflix now" = true ∧
     hasStreamingCS "STREAMING tonight" = false ∧
     hasStreamingCS "on netflix now" = false) := by
  refine ⟨?_, ?_, by decide, by decide, by decide, by decide⟩
  · exact fun frag m h => (scrapeFlixPatrolRow_fields h).2.2.2.2.2.2
  · exact fun row m h => (parseMovieRow_fields h).2.2.2.2.2.2.2

set_option maxRecDepth 100000 in
/-- Witness for the amended C4 at a concrete row. -/
theorem streamingSignalCasing_witness :
    movieInferno.hasStreaming = hasStreamingCS rowNetflixLower :=
  streamingSignalCasing.2.1 rowNetflixLower movieInferno (by decide)

set_option maxRecDepth 100000 in
/-- Claim C5 counterexample: a row whose image src and anchor href already
carry a scheme is emitted with the base origin prepended anyway, not
returned unchanged. -/
theorem absoluteUrlDoublePrefixed :
    parseMovieData docAbsUrl = [movieDune] ∧
    movieDune.posterUrl = some "https://flixpatrol.comhttps://cdn.x.com/p.jpg" ∧
    movieDune.posterUrl ≠ some "https://cdn.x.com/p.jpg" ∧
    movieDune.link = some "https://flixpatrol.comhttps://x.com/a" ∧
    movieDune.link ≠ some "https://x.com/a" := by
  refine ⟨?_, ?_, ?_, ?_, ?_⟩ <;> decide

/-- Claim C5 as amended: both extractors prefix the base origin
`https://flixpatrol.com` unconditionally onto every extracted non-empty
src/href, with no scheme check — an already-absolute URL is prefixed too. -/
theorem basePrefixUnconditional :
    (∀ (row : String) (m : Movie), parseMovieRow row = some m →
        m.posterUrl = (scanSrcJpg row.toList).map (fun s => flixBase ++ toStr s) ∧
        m.link = (scanQuoted hrefLit row.toList).map (fun s => flixBase ++ toStr s)) ∧
    (∀ (frag : RowFrag) (m : Movie), scrapeFlixPatrolRow frag = some m →
        m.posterUrl = (if frag.imgSrc.getD "" = "" then none
                       else some (flixBase ++ frag.imgSrc.getD "")) ∧
        m.link = (if frag.aHref.getD "" = "" then none
                  else some (flixBase ++ frag.aHref.getD ""))) := by
  constructor
  · exact fun row m h => ⟨(parseMovieRow_fields h).2.1, (parseMovieRow_fields h).2.2.1⟩
  · exact fun frag m h =>
      ⟨(scrapeFlixPatrolRow_fields h).2.1, (scrapeFlixPatrolRow_fields h).2.2.1⟩

set_option maxRecDepth 100000 in
/-- Witness for the amended C5 at a concrete row with absolute URLs. -/
theorem basePrefixUnconditional_witness :
    movieDune.posterUrl = (scanSrcJpg rowAbsUrl.toList).map (fun s => flixBase ++ toStr s) ∧
    movieDune.link = (scanQuoted hrefLit rowAbsUrl.toList).map (fun s => flixBase ++ toStr s) :=
  basePrefixUnconditional.1 rowAbsUrl movieDune (by decide)

/-- Claim C6 counterexample: the cheerio-based extractor emits a record
whose premiere text "06/04/25" yields `year = "25"`, which is not a 4-digit
string. -/
theorem twoDigitYearEmitted :
    scrapeFlixPatrolRow fragShortYear = some movieHeat ∧
    movieHeat.year = some "25" ∧
    isFourDigit "25" = false := by
  refine ⟨?_, ?_, ?_⟩ <;> decide

/-- Claim C6 as amended: every record emitted by the regex-based
`parseMovieData` has `year` either null or exactly the 4-digit `\d{4}`
capture of a `DD/MM/YYYY` premiere date; the cheerio-based
`scrapeFlixPatrol` instead takes the third '/'-separated component of the
premiere span's trimmed text without validating it, so a short date can
yield a non-4-digit year on an emitted record. -/
theorem yearShapePerVariant :
    (∀ (row : String) (m : Movie) (y : String), parseMovieRow row = some m →
        m.year = some y → isFourDigit y = true) ∧
    (∀ (frag : RowFrag) (m : Movie), scrapeFlixPatrolRow frag = some m →
        m.year = thirdSlashField frag.premiereText) := by
  constructor
  · intro row m y h hy
    rw [(parseMovieRow_fields h).2.2.2.1] at hy
    cases hsy : scanYear row.toList with
    | none => rw [hsy] at hy; simp at hy
    | some yl =>
      rw [hsy] at hy
      simp only [Option.map_some', Option.some.injEq] at hy
      rw [← hy]
      exact scanYear_four hsy
  · exact fun frag m h => (scrapeFlixPatrolRow_fields h).2.2.2.1

set_option maxRecDepth 4000 in
/-- Witness for the amended C6 at a concrete well-formed row. -/
theorem yearShapePerVariant_witness : isFourDigit "2025" = true :=
  yearShapePerVariant.1 rowMovieA movieA "2025" (by decide) (by decide)

/-- Claim C9: an upsert whose composite key `(title, year)` collides with a
stored row keeps the table size, leaves the stored key fields unchanged and
overwrites every non-key field (`posterUrl, link, country, genre,
hasStreaming`) with the incoming values — null values included — while
refreshing `updatedAt`. -/
theorem upsertOverwritesNonKeyFields :
    ∀ (now : Nat) (db : List StoredMovie) (m : Movie) (r : StoredMovie),
      r ∈ db → keyConflict r m = true →
      (upsertMovie now db m).length = db.length ∧
      ∃ r2, r2 ∈ upsertMovie now db m ∧
        r2.title = r.title ∧ r2.year = r.year ∧
        r2.posterUrl = m.posterUrl ∧ r2.link = m.link ∧
        r2.country = m.country ∧ r2.genre = m.genre ∧
        r2.hasStreaming = m.hasStreaming ∧ r2.updatedAt = now := by
  intro now db m r hr hk
  have hany : db.any (fun r => keyConflict r m) = true :=
    List.any_eq_true.mpr ⟨r, hr, hk⟩
  unfold upsertMovie
  simp only [hany, if_true]
  constructor
  · exact List.length_map db _
  · refine ⟨_, List.mem_map.mpr ⟨r, hr, rfl⟩, ?_⟩
    simp [hk]

/-- Witness for C9: a concrete conflicting upsert with a different genre and
a null incoming poster. -/
theorem upsertOverwritesNonKeyFields_witness :
    (upsertMovie 2 [storedX] incomingX).length = [storedX].length ∧
    ∃ r2, r2 ∈ upsertMovie 2 [storedX] incomingX ∧
      r2.title = storedX.title ∧ r2.year = storedX.year ∧
      r2.posterUrl = incomingX.posterUrl ∧ r2.link = incomingX.link ∧
      r2.country = incomingX.country ∧ r2.genre = incomingX.genre ∧
      r2.hasStreaming = incomingX.hasStreaming ∧ r2.updatedAt = 2 :=
  upsertOverwritesNonKeyFields 2 [storedX] incomingX storedX (by decide) (by decide)
